import Mathlib

/-!
Verification of the llm-browser-bot broker: a shallow embedding of the
session/command-routing layer (tab registry, command correlator, tool
dispatch timeouts, protocol session manager) translated from the
TypeScript sources, together with theorems settling the specification
claims about it.
-/

namespace LlmBrowserBot

/-! ## JavaScript-style helpers

The TypeScript code relies on JS truthiness (`0`, `""`, `undefined` are
falsy) and on `||` / `??` operators; these helpers model them. -/

/-- JS truthiness of an optional string: `undefined` and `""` are falsy. -/
def strTruthy : Option String → Bool
  | none => false
  | some s => s != ""

/-- JS truthiness of an optional number: `undefined` and `0` are falsy. -/
def numTruthy : Option Nat → Bool
  | none => false
  | some n => n != 0

/-- JS `a || b` on an optional number: falls through when `a` is absent or `0`. -/
def jsOrNum (a : Option Nat) (b : Nat) : Nat :=
  if numTruthy a then a.getD 0 else b

/-- JS `a || b` on an optional string: falls through when `a` is absent or `""`. -/
def jsOrStr (a : Option String) (b : String) : String :=
  if strTruthy a then a.getD "" else b

/-! ## Association maps

The TS code keeps its tables in `Map` objects keyed by strings
(`pendingCommands`, `connections`, `httpSessions`, `sseSessions`).
We model a `Map` as an association list with at most one binding per key. -/

/-- Lookup in an association list, like `Map.get`. -/
def getKey {α : Type} (l : List (String × α)) (k : String) : Option α :=
  (l.find? (fun p => p.1 == k)).map Prod.snd

/-- Remove a binding, like `Map.delete`. -/
def eraseKey {α : Type} (l : List (String × α)) (k : String) : List (String × α) :=
  l.filter (fun p => p.1 != k)

/-- Insert or replace a binding, like `Map.set`. -/
def setKey {α : Type} (l : List (String × α)) (k : String) (v : α) : List (String × α) :=
  (k, v) :: eraseKey l k

/-- Each key is bound at most once, as in a JS `Map`. -/
def NodupKeys {α : Type} (l : List (String × α)) : Prop :=
  (l.map Prod.fst).Nodup

theorem getKey_eraseKey_self {α : Type} (l : List (String × α)) (k : String) :
    getKey (eraseKey l k) k = none := by
  unfold getKey eraseKey
  rw [Option.map_eq_none', List.find?_eq_none]
  intro p hp
  rcases List.mem_filter.mp hp with ⟨_, hne⟩
  simpa using fun h => by simp [h] at hne

theorem getKey_setKey_self {α : Type} (l : List (String × α)) (k : String) (v : α) :
    getKey (setKey l k v) k = some v := by
  unfold getKey setKey
  simp [List.find?]

theorem nodupKeys_eraseKey {α : Type} (l : List (String × α)) (k : String)
    (h : NodupKeys l) : NodupKeys (eraseKey l k) := by
  unfold NodupKeys eraseKey at *
  exact (List.Sublist.map Prod.fst (List.filter_sublist l)).nodup h

theorem not_mem_keys_eraseKey {α : Type} (l : List (String × α)) (k : String) :
    k ∉ (eraseKey l k).map Prod.fst := by
  intro hmem
  rcases List.mem_map.mp hmem with ⟨p, hp, hk⟩
  rcases List.mem_filter.mp hp with ⟨_, hne⟩
  simp [hk] at hne

theorem nodupKeys_setKey {α : Type} (l : List (String × α)) (k : String) (v : α)
    (h : NodupKeys l) : NodupKeys (setKey l k v) := by
  unfold NodupKeys setKey
  simp only [List.map_cons, List.nodup_cons]
  exact ⟨not_mem_keys_eraseKey l k, nodupKeys_eraseKey l k h⟩

theorem count_key_le_one {α : Type} (l : List (String × α)) (k : String)
    (h : NodupKeys l) : (l.filter (fun p => p.1 == k)).length ≤ 1 := by
  unfold NodupKeys at h
  induction l with
  | nil => simp
  | cons p rest ih =>
    simp only [List.map_cons, List.nodup_cons] at h
    by_cases hk : p.1 = k
    · have hrest : rest.filter (fun q => q.1 == k) = [] := by
        rw [List.filter_eq_nil_iff]
        intro q hq hqk
        exact h.1 (by
          have : q.1 = k := by simpa using hqk
          rw [hk]
          exact this ▸ List.mem_map.mpr ⟨q, hq, rfl⟩)
      simp [List.filter_cons, hk, hrest]
    · have := ih h.2
      simp only [List.filter_cons]
      split
      · next hcond =>
        exact absurd (by simpa using hcond) hk
      · exact this

/-! ## Tab registry

`tab-registry.ts` itself is not among the provided sources; only its
callers are.  The registry operations used by the correlator and the
session manager are therefore modelled from the spec. -/

/-- One connected tab agent, with the metadata carried by the registry
(`TabConnection` in the sources: id, owning browser instance, URL/title,
content metrics, active flag, timestamps). -/
structure Tab where
  tabId : String
  url : String
  title : String
  browserInstanceId : Option String
  active : Bool
  connectedAt : Nat
  lastPing : Nat
  domSize : Nat
  fullPageDimensions : Nat × Nat
  viewportDimensions : Nat × Nat
  scrollPosition : Nat × Nat
  pageVisibility : Bool
  deriving Repr, DecidableEq

/-- The Tab Registry's table: one entry per connected tab agent. -/
abbrev TabRegistryState := List Tab

/-- Modelled from the spec: `tab-registry.ts` is missing from the sources.
The Tab Registry is "the authoritative table of connected tab agents";
`get` looks a tab up by its id. -/
def getTab (registry : TabRegistryState) (tabId : String) : Option Tab :=
  registry.find? (fun t => t.tabId == tabId)

/-- Modelled from the spec: `tab-registry.ts` is missing from the sources.
`updateTabInfo` is the Tab Registry update the correlator calls with the
refreshed URL/title of a tab ("the correlator opportunistically calls
Tab Registry.update"); it rewrites those two fields of the matching entry. -/
def updateTabInfo (registry : TabRegistryState) (tabId url title : String) :
    TabRegistryState :=
  registry.map (fun t => if t.tabId == tabId then { t with url := url, title := title } else t)

theorem getTab_updateTabInfo_self (registry : TabRegistryState) (tabId url title : String) :
    getTab (updateTabInfo registry tabId url title) tabId =
      (getTab registry tabId).map (fun t => { t with url := url, title := title }) := by
  unfold getTab updateTabInfo
  induction registry with
  | nil => rfl
  | cons t rest ih =>
    by_cases h : t.tabId = tabId
    · simp [List.find?, h]
    · have h1 : (t.tabId == tabId) = false := by simpa using h
      simp only [List.map_cons, List.find?, h1]
      simpa [h1] using ih

/-! ## Command correlator (`browser-command-handler.ts`)

`BrowserCommandHandler` keeps `pendingCommands : Map<string, {resolve,
reject, timeout, tabId}>`.  A pending entry models the waiter plus its
armed timer: in the source the timer is cleared exactly when the entry is
deleted, so entry presence and armed timer coincide.  The `command`,
`selector` and `xpath` fields model the values the timeout closure
captures for its error message. -/

structure PendingEntry where
  command : String
  selector : Option String
  xpath : Option String
  tabId : Option String
  timeoutMs : Nat
  deriving Repr, DecidableEq

/-- The correlator's state: the tab registry it reads through, and the
pending-commands table. -/
structure CorrState where
  registry : TabRegistryState
  pending : List (String × PendingEntry)
  deriving Repr

/-- The argument bag a tool invocation carries into `executeCommand`
(after zod validation).  `commandTimeout` models the internal
`_commandTimeout` field set by the tool dispatch layer. -/
structure ExecArgs where
  tabId : Option String
  timeout : Option Nat
  commandTimeout : Option Nat
  selector : Option String
  xpath : Option String
  text : Option String
  delay : Option Nat
  deriving Repr, DecidableEq

/-- `params._commandTimeout || params.timeout || 5000` from
`executeCommand`: the correlator-level deadline in milliseconds. -/
def computeTimeoutMs (args : ExecArgs) : Nat :=
  jsOrNum args.commandTimeout (jsOrNum args.timeout 5000)

inductive ExecOutcome
  /-- `throw new Error('tabId is required')` -/
  | errNoTabId
  /-- `throw new Error('Tab ... not found')` -/
  | errTabNotFound (tabId : String)
  /-- pending entry registered and command sent to the tab -/
  | dispatched (cmdId : String) (timeoutMs : Nat)
  deriving Repr, DecidableEq

/-- `BrowserCommandHandler.executeCommand`: extract `tabId`, fail if it is
missing or names no registered tab, otherwise register a pending entry
(with its armed timeout) under the freshly generated command id and send
the command.  `cmdId` stands for the generated `cmd-...` id. -/
def executeCommand (st : CorrState) (cmdId command : String) (args : ExecArgs) :
    CorrState × ExecOutcome :=
  if strTruthy args.tabId = false then
    (st, .errNoTabId)
  else
    let tid := args.tabId.getD ""
    match getTab st.registry tid with
    | none => (st, .errTabNotFound tid)
    | some _ =>
      let timeoutMs := computeTimeoutMs args
      let entry : PendingEntry :=
        { command := command, selector := args.selector, xpath := args.xpath,
          tabId := some tid, timeoutMs := timeoutMs }
      ({ st with pending := setKey st.pending cmdId entry }, .dispatched cmdId timeoutMs)

/-- The error message the timeout handler builds: command name plus the
targeted selector or xpath when one was supplied. -/
def timeoutMessage (command : String) (selector xpath : Option String) : String :=
  let base := "Command timeout: " ++ command
  if strTruthy selector then base ++ " (selector: " ++ selector.getD "" ++ ")"
  else if strTruthy xpath then base ++ " (xpath: " ++ xpath.getD "" ++ ")"
  else base

/-- How a settled waiter is resolved. -/
inductive SettleAction
  | resolve
  | reject (message : String)
  deriving Repr, DecidableEq

/-- The timer callback armed by `executeCommand`: when the deadline fires
the entry is deleted and the waiter rejected with the descriptive message.
A timer whose entry was already removed was cancelled (`clearTimeout`), so
firing it is a no-op. -/
def fireTimeout (st : CorrState) (cmdId : String) : CorrState × Option SettleAction :=
  match getKey st.pending cmdId with
  | none => (st, none)
  | some p =>
    ({ st with pending := eraseKey st.pending cmdId },
     some (.reject (timeoutMessage p.command p.selector p.xpath)))

/-- The `result` payload of a response, as far as the correlator inspects
it: the optional refreshed `url` and `title`. -/
structure ResponsePayload where
  url : Option String
  title : Option String
  deriving Repr, DecidableEq

/-- A response envelope from a tab agent (`CommandResponse` in the
sources).  `result = none` models an absent or falsy `result`. -/
structure CommandResponse where
  id : String
  success : Bool
  result : Option ResponsePayload
  errorMessage : Option String
  deriving Repr, DecidableEq

/-- `BrowserCommandHandler.handleCommandResponse`: look up the pending
entry for the response id (discarding the response when there is none),
clear the timer and remove the entry, opportunistically push refreshed
URL/title into the tab registry, then resolve or reject the waiter. -/
def handleCommandResponse (st : CorrState) (resp : CommandResponse) :
    CorrState × Option SettleAction :=
  match getKey st.pending resp.id with
  | none => (st, none)
  | some p =>
    let pending1 := eraseKey st.pending resp.id
    let registry1 :=
      if resp.success && resp.result.isSome && strTruthy p.tabId then
        match resp.result with
        | some r =>
          if strTruthy r.url && strTruthy r.title then
            updateTabInfo st.registry (p.tabId.getD "") (r.url.getD "") (r.title.getD "")
          else st.registry
        | none => st.registry
      else st.registry
    let settle : SettleAction :=
      if resp.success then .resolve
      else .reject (jsOrStr resp.errorMessage "Command failed")
    ({ registry := registry1, pending := pending1 }, some settle)

/-! ## Tool dispatch layer (`tool-handler.ts`)

`ToolHandler.callTool` adjusts per-tool timeouts before handing the
argument bag to the command handler; `executeCommand` then computes the
correlator deadline from the adjusted bag. -/

/-- The per-tool timeout adjustment in `ToolHandler.callTool`'s `switch`:
`keypress` widens `timeout` from `delay` when the caller gave none;
`click` forces `_commandTimeout` to the caller timeout or 8s;
`wait_for_element` sets `_commandTimeout` to its wait timeout plus 2s;
`type` sets `_commandTimeout` to the caller timeout, or to a value
computed from text length and typing delay. -/
def adjustToolArgs (name : String) (args : ExecArgs) : ExecArgs :=
  if name = "keypress" then
    if numTruthy args.delay && !numTruthy args.timeout then
      { args with timeout := some (max 5000 (args.delay.getD 0 + 2000)) }
    else args
  else if name = "click" then
    { args with commandTimeout := some (jsOrNum args.timeout 8000) }
  else if name = "wait_for_element" then
    if numTruthy args.timeout then
      { args with commandTimeout := some (args.timeout.getD 0 + 2000) }
    else args
  else if name = "type" then
    if strTruthy args.text then
      let delay := args.delay.getD 50
      let typingTime := (args.text.getD "").length * delay
      let calculatedTimeout := max 5000 (typingTime + 5000)
      { args with commandTimeout := some (jsOrNum args.timeout calculatedTimeout) }
    else args
  else args

/-- The correlator-level deadline that results from dispatching tool
`name`: the tool handler's adjustment followed by `executeCommand`'s
`_commandTimeout || timeout || 5000`. -/
def dispatchDeadline (name : String) (args : ExecArgs) : Nat :=
  computeTimeoutMs (adjustToolArgs name args)

/-! ## Protected chat tabs and `list_tabs` (`tool-handler.ts`)

`isProtectedChatTab` parses the tab URL with `new URL(url)` and compares
the hostname (with a leading `www.` stripped) against the denylist.  URL
parsing is modelled on character lists so every definition evaluates by
kernel reduction. -/

/-- Drop characters up to and including the first `://`; `none` when the
URL has no scheme separator (where `new URL` would throw). -/
def dropSchemeSep : List Char → Option (List Char)
  | [] => none
  | ':' :: '/' :: '/' :: rest => some rest
  | _ :: rest => dropSchemeSep rest

/-- The authority component: characters before the first `/`, `?` or `#`. -/
def takeAuthority : List Char → List Char
  | [] => []
  | c :: cs => if c = '/' ∨ c = '?' ∨ c = '#' then [] else c :: takeAuthority cs

/-- Models `new URL(url).hostname` for scheme-qualified URLs: the
authority without userinfo and port, lowercased; `none` when parsing
fails. -/
def hostnameOf (url : String) : Option String :=
  match dropSchemeSep url.data with
  | none => none
  | some rest =>
    let auth := takeAuthority rest
    let afterAt := (auth.reverse.takeWhile (fun c => c ≠ '@')).reverse
    let host := afterAt.takeWhile (fun c => c ≠ ':')
    if host.isEmpty then none else some (String.mk (host.map Char.toLower))

/-- `hostname.replace(/^www\./, '')`. -/
def stripWww (h : String) : String :=
  match h.data with
  | 'w' :: 'w' :: 'w' :: '.' :: rest => String.mk rest
  | _ => h

/-- The denylist `PROTECTED_HOSTS`. -/
def protectedHosts : List String := ["chat.openai.com", "chatgpt.com"]

/-- `isProtectedChatTab(url)`: hostname match against the denylist;
`false` for a missing URL or a URL that does not parse. -/
def isProtectedChatTab (url : Option String) : Bool :=
  match url with
  | none => false
  | some u =>
    match hostnameOf u with
    | none => false
    | some h => protectedHosts.contains (stripWww h)

/-- `p` occurs at the start of `s`. -/
def isPrefixChars : List Char → List Char → Bool
  | [], _ => true
  | _ :: _, [] => false
  | p :: ps, c :: cs => p == c && isPrefixChars ps cs

/-- `s.includes(p)` on character lists. -/
def containsChars (p : List Char) : List Char → Bool
  | [] => p.isEmpty
  | c :: cs => isPrefixChars p (c :: cs) || containsChars p cs

/-- One entry of the browser's own tab list, as returned by the
`getAllTabs` bridge command. -/
structure BrowserTab where
  id : String
  title : String
  url : String
  active : Bool
  deriving Repr, DecidableEq

/-- `BrowserCommandHandler.queryTabsFromInstance`'s post-processing:
drop tabs whose lowercased URL contains `chatgpt.com` or `openai.com`,
and prefix ids with the instance id when one is known. -/
def queryTabsPostprocess (tabs : List BrowserTab) (instanceId : Option String) :
    List BrowserTab :=
  (tabs.filter (fun t =>
      let lower := t.url.data.map Char.toLower
      !(containsChars "chatgpt.com".data lower) && !(containsChars "openai.com".data lower)))
    |>.map (fun t =>
      match instanceId with
      | some iid => { t with id := iid ++ ":" ++ t.id }
      | none => t)

/-- One tab of the `list_tabs` result. -/
structure TabListEntry where
  tabId : String
  title : String
  url : String
  active : Bool
  connected : Bool
  automationSafe : Bool
  deriving Repr, DecidableEq

/-- The `list_tabs` result object. -/
structure ListTabsResult where
  tabs : List TabListEntry
  hint : Option String
  recommendedTabId : Option String
  deriving Repr, DecidableEq

/-- The annotation `list_tabs` computes per browser tab: connectivity
from the registry id set, and
`automationSafe: !isChatGPT && connectedTabIds.has(id)`. -/
def mkTabListEntry (connectedIds : List String) (t : BrowserTab) : TabListEntry :=
  let isChatGPT := isProtectedChatTab (some t.url)
  { tabId := t.id, title := t.title, url := t.url, active := t.active,
    connected := connectedIds.contains t.id,
    automationSafe := !isChatGPT && connectedIds.contains t.id }

/-- The `list_tabs` success path in `ToolHandler.callTool`: annotate the
browser-reported tabs, then attach the hint (and recommended tab) chosen
from connectivity, safety and the active tab; finally the empty-list
hint.  `connectedIds` is `tabRegistry.getAll().map(t => t.tabId)`. -/
def listTabsSuccess (browserTabs : List BrowserTab) (connectedIds : List String) :
    ListTabsResult :=
  let allTabs := browserTabs.map (mkTabListEntry connectedIds)
  let safeTabs := allTabs.filter (fun t => t.automationSafe)
  let activeTab := allTabs.find? (fun t => t.active)
  let base : ListTabsResult := { tabs := allTabs, hint := none, recommendedTabId := none }
  let r :=
    if connectedIds.isEmpty then
      { base with hint := some "No tabs are connected to the server. Use new_tab to create an automation tab." }
    else if safeTabs.isEmpty then
      { base with hint := some "No safe automation tabs available. Use new_tab to create one." }
    else if isProtectedChatTab (activeTab.map (fun t => t.url)) then
      match safeTabs with
      | recTab :: _ =>
        { base with
          hint := some ("Active tab is ChatGPT - do NOT automate it. Use tabId \"" ++ recTab.tabId
            ++ "\" (" ++ jsOrStr (some recTab.title) recTab.url ++ ") for automation."),
          recommendedTabId := some recTab.tabId }
      | [] => base
    else
      let connectedCount := (allTabs.filter (fun t => t.connected)).length
      { base with hint := some (toString connectedCount ++ " tab(s) connected. Tabs with automationSafe=true are ready for automation.") }
  if r.tabs.isEmpty then
    { r with hint := some "No tabs connected. Use new_tab to create an automation tab!" }
  else r

/-- The `list_tabs` registry fallback (bridge query failed): every
registry tab is listed as connected, `automationSafe` from the denylist
test alone. -/
def listTabsFallback (registry : TabRegistryState) : ListTabsResult :=
  let tabs := registry.map (fun tab =>
    { tabId := tab.tabId, title := tab.title, url := tab.url, active := tab.active,
      connected := true,
      automationSafe := !isProtectedChatTab (some tab.url) : TabListEntry })
  if tabs.isEmpty then
    { tabs := tabs, hint := some "No tabs connected. Use new_tab to create an automation tab!",
      recommendedTabId := none }
  else
    { tabs := tabs, hint := none, recommendedTabId := none }

/-! ## Protocol session manager (`mcp-server-manager.ts`)

`MCPServerManager` keeps `connections` (all client sessions, each with an
`initialized` flag), `httpSessions` (Streamable-HTTP session id →
connection id) and `sseSessions` (SSE session id → connection). -/

inductive TransportKind
  | websocket
  | sse
  | http
  deriving Repr, DecidableEq

/-- A client session (`MCPConnection` in the sources).  `hasTransport`
models the optional `transport` field; `transportSessionId` models
`transport.sessionId`. -/
structure MCPConnection where
  id : String
  kind : TransportKind
  hasTransport : Bool
  transportSessionId : Option String
  initialized : Bool
  deriving Repr, DecidableEq

/-- The tab-list snapshot field set sent by
`sendTabListChangeNotification` (note: no `active`, no browser id). -/
structure TabSummary where
  tabId : String
  url : String
  title : String
  connectedAt : Nat
  lastPing : Nat
  domSize : Nat
  fullPageDimensions : Nat × Nat
  viewportDimensions : Nat × Nat
  scrollPosition : Nat × Nat
  pageVisibility : Bool
  deriving Repr, DecidableEq

def tabSummary (t : Tab) : TabSummary :=
  { tabId := t.tabId, url := t.url, title := t.title, connectedAt := t.connectedAt,
    lastPing := t.lastPing, domSize := t.domSize, fullPageDimensions := t.fullPageDimensions,
    viewportDimensions := t.viewportDimensions, scrollPosition := t.scrollPosition,
    pageVisibility := t.pageVisibility }

/-- The full current tab list snapshot: one summary per registered tab. -/
def tabsSnapshot (registry : TabRegistryState) : List TabSummary :=
  registry.map tabSummary

/-- The asynchronous notifications the manager can fan out. -/
inductive Notification
  | resourcesListChanged
  | tabDisconnected (tabId : String)
  | consoleLog (tabId : String)
  | tabsChanged (tabs : List TabSummary)
  deriving Repr, DecidableEq

/-- The manager's state. -/
structure ManagerState where
  connections : List MCPConnection
  httpSessions : List (String × String)
  sseSessions : List (String × MCPConnection)
  registry : TabRegistryState
  dynamicTabResources : List String
  deriving Repr

/-- Lookup of a connection by id (the `connections` map). -/
def findConn (st : ManagerState) (connId : String) : Option MCPConnection :=
  st.connections.find? (fun c => c.id == connId)

/-- `notifyAllConnections`: deliver a notification to every connection
whose `initialized` flag is set, skipping all others. -/
def notifyAllConnections (st : ManagerState) (n : Notification) :
    List (String × Notification) :=
  (st.connections.filter (fun c => c.initialized)).map (fun c => (c.id, n))

/-- The externally observable events driving the manager's notification
paths: the three Tab Registry callbacks, the console-log handler, and a
client completing its initialization handshake. -/
inductive ManagerEvent
  | tabConnect (tab : Tab)
  | tabUpdate (tabId url title : String)
  | tabDisconnect (tabId : String)
  | consoleLog (tabId : String)
  | clientInitialized (connId : String)
  deriving Repr, DecidableEq

/-- Modelled from the spec for the registry side (`tab-registry.ts` is
missing from the sources): a Tab Session is created on registration and
destroyed on transport close, and the registry mutation precedes the
callback (`setupTabCallbacks` reads the new state through
`tabRegistry.get`/`getAll`).  The manager side (resource bookkeeping and
which notifications are sent to whom, from `setupTabCallbacks`,
`server.oninitialized` and `sendTabListChangeNotification`) is translated
from the source.  Returns the new state and the delivered
`(connection id, notification)` pairs in order. -/
def processEvent (st : ManagerState) (e : ManagerEvent) :
    ManagerState × List (String × Notification) :=
  match e with
  | .tabConnect tab =>
    let registry1 := st.registry ++ [tab]
    let dyn1 := if st.dynamicTabResources.contains tab.tabId then st.dynamicTabResources
                else tab.tabId :: st.dynamicTabResources
    let st1 := { st with registry := registry1, dynamicTabResources := dyn1 }
    (st1, notifyAllConnections st1 .resourcesListChanged
            ++ notifyAllConnections st1 (.tabsChanged (tabsSnapshot registry1)))
  | .tabUpdate tabId url title =>
    let registry1 := updateTabInfo st.registry tabId url title
    let st1 := { st with registry := registry1 }
    let resourceNotifs :=
      if st.dynamicTabResources.contains tabId then
        notifyAllConnections st1 .resourcesListChanged
      else []
    (st1, resourceNotifs ++ notifyAllConnections st1 (.tabsChanged (tabsSnapshot registry1)))
  | .tabDisconnect tabId =>
    let registry1 := st.registry.filter (fun t => t.tabId != tabId)
    let dyn1 := st.dynamicTabResources.filter (fun k => k != tabId)
    let st1 := { st with registry := registry1, dynamicTabResources := dyn1 }
    let perConn := (st1.connections.filter (fun c => c.initialized)).flatMap
      (fun c => [(c.id, Notification.resourcesListChanged), (c.id, Notification.tabDisconnected tabId)])
    (st1, perConn ++ notifyAllConnections st1 (.tabsChanged (tabsSnapshot registry1)))
  | .consoleLog tabId =>
    (st, notifyAllConnections st (.consoleLog tabId))
  | .clientInitialized connId =>
    let connections1 := st.connections.map
      (fun c => if c.id == connId then { c with initialized := true } else c)
    let st1 := { st with connections := connections1 }
    let notifs :=
      if st.registry.isEmpty then []
      else notifyAllConnections st1 (.tabsChanged (tabsSnapshot st.registry))
    (st1, notifs)

/-- Run a sequence of events, accumulating the delivered notifications. -/
def processEvents (st : ManagerState) : List ManagerEvent → ManagerState × List (String × Notification)
  | [] => (st, [])
  | e :: es =>
    let r1 := processEvent st e
    let r2 := processEvents r1.1 es
    (r2.1, r1.2 ++ r2.2)

/-- Number of notifications delivered to a given connection id. -/
def deliveredTo (notifs : List (String × Notification)) (connId : String) : Nat :=
  (notifs.filter (fun p => p.1 == connId)).length

/-! ### Transport routing (`handleHttpRequest`, `handleSSEMessage`) -/

/-- Outcome of routing one Streamable-HTTP request. -/
inductive HttpOutcome
  /-- session known: request delegated to the stored transport -/
  | delegatedExisting (connId : String)
  /-- session known but its connection or transport is gone: the session
  entry is dropped and the handler returns without answering -/
  | sessionWithoutConnection (sessionId : String)
  /-- no (known) session: a fresh server, transport and connection are
  created and the request is delegated to them; `unknownSessionWarned`
  records whether the request carried a session id that matched nothing -/
  | newConnection (connId : String) (unknownSessionWarned : Bool)
  deriving Repr, DecidableEq

/-- `MCPServerManager.handleHttpRequest`: route by the `mcp-session-id`
header.  A matching live session is reused; a matching session whose
connection is gone is dropped; otherwise — including a header matching no
known session, which is only logged — a fresh connection with a fresh
transport is created (id `freshConnId`) and handles the request.  No
`httpSessions` entry is created here: sessions are stored only when the
transport later reports `onsessioninitialized` with a freshly generated
UUID. -/
def handleHttpRequest (st : ManagerState) (sessionId : Option String)
    (freshConnId : String) : ManagerState × HttpOutcome :=
  let freshConn : MCPConnection :=
    { id := freshConnId, kind := .http, hasTransport := true,
      transportSessionId := none, initialized := false }
  let fresh := fun (warned : Bool) =>
    ({ st with connections := st.connections ++ [freshConn] },
     HttpOutcome.newConnection freshConnId warned)
  match sessionId with
  | none => fresh false
  | some sid =>
    match getKey st.httpSessions sid with
    | some connId =>
      match findConn st connId with
      | some conn =>
        if conn.hasTransport then (st, .delegatedExisting connId)
        else ({ st with httpSessions := eraseKey st.httpSessions sid },
              .sessionWithoutConnection sid)
      | none =>
        ({ st with httpSessions := eraseKey st.httpSessions sid },
         .sessionWithoutConnection sid)
    | none => fresh true

/-- Outcome of routing one SSE `POST /messages` request. -/
inductive SSEOutcome
  /-- 400 `Missing sessionId` -/
  | missingSessionId
  /-- 404 `Session not found` -/
  | sessionNotFound (sessionId : String)
  /-- delegated to the session's transport -/
  | delegated (connId : String)
  deriving Repr, DecidableEq

/-- `MCPServerManager.handleSSEMessage`: route by the `sessionId` query
parameter.  Unknown session ids are rejected with an explicit 404
`Session not found`; the only state change is backfilling the
`sseSessions` cache when the linear scan finds the session. -/
def handleSSEMessage (st : ManagerState) (sessionId : Option String) :
    ManagerState × SSEOutcome :=
  match sessionId with
  | none => (st, .missingSessionId)
  | some sid =>
    let target :=
      match getKey st.sseSessions sid with
      | some conn => some (conn, false)
      | none =>
        match st.connections.find? (fun (c : MCPConnection) =>
          c.kind == TransportKind.sse && c.hasTransport && c.transportSessionId == some sid) with
        | some conn => some (conn, true)
        | none => none
    match target with
    | none => (st, .sessionNotFound sid)
    | some (conn, cache) =>
      if conn.hasTransport then
        (if cache then { st with sseSessions := setKey st.sseSessions sid conn } else st,
         .delegated conn.id)
      else (st, .sessionNotFound sid)

/-! ### Session timeout heuristic (`parseSessionTimeout`) -/

/-- The `mcp-session-timeout` header after JS number conversion:
`missing` covers an absent or empty (falsy) header, `notNumeric` covers
`NaN` and infinite conversions, `value q` a finite `Number(header)`. -/
inductive SessionTimeoutHeader
  | missing
  | notNumeric
  | value (q : ℚ)
  deriving DecidableEq

/-- `MCPServerManager.parseSessionTimeout`: non-finite or non-positive
values are rejected; values below 1000 are treated as seconds and
multiplied by 1000; larger values are milliseconds. -/
def parseSessionTimeout : SessionTimeoutHeader → Option ℚ
  | .missing => none
  | .notNumeric => none
  | .value q => if q ≤ 0 then none else if q < 1000 then some (q * 1000) else some q

/-- `defaultHttpSessionTimeoutMs = 30 * 60 * 1000`. -/
def defaultHttpSessionTimeoutMs : ℚ := 30 * 60 * 1000

/-- The idle timeout stored for a new Streamable-HTTP session:
`parseSessionTimeout(header) ?? defaultHttpSessionTimeoutMs`. -/
def sessionTimeoutMs (h : SessionTimeoutHeader) : ℚ :=
  (parseSessionTimeout h).getD defaultHttpSessionTimeoutMs

/-! ## Correlator lemmas -/

theorem handleCommandResponse_pending_cases (st : CorrState) (resp : CommandResponse) :
    (handleCommandResponse st resp).1.pending = st.pending
    ∨ (handleCommandResponse st resp).1.pending = eraseKey st.pending resp.id := by
  unfold handleCommandResponse
  cases h : getKey st.pending resp.id with
  | none => left; rfl
  | some p => right; rfl

theorem getKey_after_handleCommandResponse (st : CorrState) (resp : CommandResponse) :
    getKey (handleCommandResponse st resp).1.pending resp.id = none := by
  unfold handleCommandResponse
  cases h : getKey st.pending resp.id with
  | none => simpa using h
  | some p => simpa using getKey_eraseKey_self st.pending resp.id

theorem handleCommandResponse_of_getKey_none (st : CorrState) (resp : CommandResponse)
    (h : getKey st.pending resp.id = none) :
    handleCommandResponse st resp = (st, none) := by
  unfold handleCommandResponse
  rw [h]

theorem getKey_after_fireTimeout (st : CorrState) (cmdId : String) :
    getKey (fireTimeout st cmdId).1.pending cmdId = none := by
  unfold fireTimeout
  cases h : getKey st.pending cmdId with
  | none => simpa using h
  | some p => simpa using getKey_eraseKey_self st.pending cmdId

/-- C2: for every command id at most one pending entry exists, the
entry is removed on settlement by response or by timeout, and a second
response bearing the same id finds no entry and is discarded without
resolving or rejecting again. -/
theorem c2_single_settlement (st : CorrState) (resp : CommandResponse)
    (cmdId command : String) (args : ExecArgs)
    (hnd : NodupKeys st.pending) :
    (st.pending.filter (fun p => p.1 == resp.id)).length ≤ 1
    ∧ NodupKeys (executeCommand st cmdId command args).1.pending
    ∧ getKey (handleCommandResponse st resp).1.pending resp.id = none
    ∧ handleCommandResponse (handleCommandResponse st resp).1 resp
        = ((handleCommandResponse st resp).1, none)
    ∧ getKey (fireTimeout st resp.id).1.pending resp.id = none
    ∧ handleCommandResponse (fireTimeout st resp.id).1
        { resp with id := resp.id }
        = ((fireTimeout st resp.id).1, none)
    ∧ NodupKeys (handleCommandResponse st resp).1.pending
    ∧ NodupKeys (fireTimeout st resp.id).1.pending := by
  refine ⟨count_key_le_one st.pending resp.id hnd, ?_, ?_, ?_, ?_, ?_, ?_, ?_⟩
  · unfold executeCommand
    by_cases h1 : strTruthy args.tabId = false
    · simpa [h1] using hnd
    · simp only [h1, if_false]
      cases h2 : getTab st.registry (args.tabId.getD "") with
      | none => simpa using hnd
      | some tab => simpa using nodupKeys_setKey st.pending cmdId _ hnd
  · exact getKey_after_handleCommandResponse st resp
  · exact handleCommandResponse_of_getKey_none _ resp
      (getKey_after_handleCommandResponse st resp)
  · exact getKey_after_fireTimeout st resp.id
  · exact handleCommandResponse_of_getKey_none _ _ (getKey_after_fireTimeout st resp.id)
  · rcases handleCommandResponse_pending_cases st resp with h | h
    · rw [h]; exact hnd
    · rw [h]; exact nodupKeys_eraseKey st.pending resp.id hnd
  · unfold fireTimeout
    cases h : getKey st.pending resp.id with
    | none => simpa using hnd
    | some p => simpa using nodupKeys_eraseKey st.pending resp.id hnd

def c2Entry : PendingEntry :=
  { command := "click", selector := some "#btn", xpath := none,
    tabId := some "t1", timeoutMs := 5000 }

def c2St : CorrState := { registry := [], pending := [("cmd-1", c2Entry)] }

def c2Resp : CommandResponse :=
  { id := "cmd-1", success := true, result := none, errorMessage := none }

def c2Args : ExecArgs :=
  { tabId := some "t1", timeout := none, commandTimeout := none,
    selector := none, xpath := none, text := none, delay := none }

theorem c2_single_settlement_witness :
    (c2St.pending.filter (fun p => p.1 == c2Resp.id)).length ≤ 1
    ∧ NodupKeys (executeCommand c2St "cmd-2" "click" c2Args).1.pending
    ∧ getKey (handleCommandResponse c2St c2Resp).1.pending c2Resp.id = none
    ∧ handleCommandResponse (handleCommandResponse c2St c2Resp).1 c2Resp
        = ((handleCommandResponse c2St c2Resp).1, none)
    ∧ getKey (fireTimeout c2St c2Resp.id).1.pending c2Resp.id = none
    ∧ handleCommandResponse (fireTimeout c2St c2Resp.id).1
        { c2Resp with id := c2Resp.id }
        = ((fireTimeout c2St c2Resp.id).1, none)
    ∧ NodupKeys (handleCommandResponse c2St c2Resp).1.pending
    ∧ NodupKeys (fireTimeout c2St c2Resp.id).1.pending :=
  c2_single_settlement c2St c2Resp "cmd-2" "click" c2Args (by unfold NodupKeys; decide)

/-- C3: a command issued against a tab id with no live transport
connection fails synchronously with `Tab ... not found` and leaves the
correlator state — pending entries and armed timers — untouched.
The identification of "no live transport connection" with absence from
the registry is modelled from the spec: a Tab Session is "destroyed when
the underlying transport closes", so the registry holds exactly the tabs
with a live connection. -/
theorem c3_no_connection_fails_fast (st : CorrState) (cmdId command : String)
    (args : ExecArgs) (tid : String)
    (htid : args.tabId = some tid) (hne : tid ≠ "")
    (hno : getTab st.registry tid = none) :
    executeCommand st cmdId command args = (st, .errTabNotFound tid) := by
  have h1 : strTruthy args.tabId = true := by simp [strTruthy, htid, hne]
  unfold executeCommand
  rw [h1]
  simp only [Bool.true_eq_false, if_false, htid, Option.getD_some]
  rw [hno]

def c3St : CorrState := { registry := [], pending := [] }

def c3Args : ExecArgs :=
  { tabId := some "t9", timeout := none, commandTimeout := none,
    selector := none, xpath := none, text := none, delay := none }

theorem c3_no_connection_fails_fast_witness :
    executeCommand c3St "cmd-1" "click" c3Args = (c3St, .errTabNotFound "t9") :=
  c3_no_connection_fails_fast c3St "cmd-1" "click" c3Args "t9" rfl (by decide) rfl

/-- C5: a successful response carrying refreshed URL and title for a tab
still pending in the correlator updates the Tab Registry, so reading that
tab afterwards returns the new URL and title; the waiter is resolved. -/
theorem c5_metadata_flows_to_registry (st : CorrState) (resp : CommandResponse)
    (p : PendingEntry) (tb : Tab) (tid u ti : String)
    (hp : getKey st.pending resp.id = some p)
    (htid : p.tabId = some tid) (htidne : tid ≠ "")
    (hsucc : resp.success = true)
    (hres : resp.result = some { url := some u, title := some ti })
    (hu : u ≠ "") (hti : ti ≠ "")
    (htab : getTab st.registry tid = some tb) :
    getTab (handleCommandResponse st resp).1.registry tid
        = some { tb with url := u, title := ti }
    ∧ (handleCommandResponse st resp).2 = some SettleAction.resolve := by
  unfold handleCommandResponse
  rw [hp]
  have htid1 : strTruthy p.tabId = true := by simp [strTruthy, htid, htidne]
  have hu1 : strTruthy (some u) = true := by simp [strTruthy, hu]
  have hti1 : strTruthy (some ti) = true := by simp [strTruthy, hti]
  simp only [hsucc, hres, htid, htid1, hu1, hti1, Option.isSome_some, Bool.and_self,
    Bool.and_true, Bool.true_and, if_true, Option.getD_some]
  have htid2 : strTruthy (some tid) = true := by simp [strTruthy, htidne]
  simp [htid2, getTab_updateTabInfo_self, htab]

def c5Tab : Tab :=
  { tabId := "t1", url := "https://a.test", title := "A", browserInstanceId := none,
    active := true, connectedAt := 0, lastPing := 0, domSize := 0,
    fullPageDimensions := (0, 0), viewportDimensions := (0, 0),
    scrollPosition := (0, 0), pageVisibility := true }

def c5Entry : PendingEntry :=
  { command := "navigate", selector := none, xpath := none,
    tabId := some "t1", timeoutMs := 5000 }

def c5St : CorrState := { registry := [c5Tab], pending := [("cmd-7", c5Entry)] }

def c5Resp : CommandResponse :=
  { id := "cmd-7", success := true,
    result := some { url := some "https://b.test", title := some "B" },
    errorMessage := none }

theorem c5_metadata_flows_to_registry_witness :
    getTab (handleCommandResponse c5St c5Resp).1.registry "t1"
        = some { c5Tab with url := "https://b.test", title := "B" }
    ∧ (handleCommandResponse c5St c5Resp).2 = some SettleAction.resolve :=
  c5_metadata_flows_to_registry c5St c5Resp c5Entry c5Tab "t1" "https://b.test" "B"
    rfl rfl (by decide) rfl rfl (by decide) (by decide) rfl

/-- C6: when a pending command's deadline fires, the correlator removes
the entry (so the waiter cannot stay blocked) and rejects the waiter with
a message naming the command and the targeted selector (or, failing that,
xpath) when one was supplied. -/
theorem c6_timeout_rejects_with_context (st : CorrState) (cmdId : String)
    (p : PendingEntry) (hp : getKey st.pending cmdId = some p) :
    (fireTimeout st cmdId).1.pending = eraseKey st.pending cmdId
    ∧ getKey (fireTimeout st cmdId).1.pending cmdId = none
    ∧ (fireTimeout st cmdId).2
        = some (.reject (timeoutMessage p.command p.selector p.xpath))
    ∧ (∃ a b, timeoutMessage p.command p.selector p.xpath = a ++ p.command ++ b)
    ∧ (∀ s, p.selector = some s → s ≠ "" →
        ∃ a b, timeoutMessage p.command p.selector p.xpath = a ++ s ++ b)
    ∧ (∀ x, strTruthy p.selector = false → p.xpath = some x → x ≠ "" →
        ∃ a b, timeoutMessage p.command p.selector p.xpath = a ++ x ++ b) := by
  refine ⟨?_, getKey_after_fireTimeout st cmdId, ?_, ?_, ?_, ?_⟩
  · unfold fireTimeout; rw [hp]
  · unfold fireTimeout; rw [hp]
  · unfold timeoutMessage
    by_cases h1 : strTruthy p.selector = true
    · exact ⟨"Command timeout: ", " (selector: " ++ p.selector.getD "" ++ ")",
        by simp [h1, String.append_assoc]⟩
    · by_cases h2 : strTruthy p.xpath = true
      · exact ⟨"Command timeout: ", " (xpath: " ++ p.xpath.getD "" ++ ")",
          by simp [h1, h2, String.append_assoc]⟩
      · exact ⟨"Command timeout: ", "",
          by simp [h1, h2, String.append_assoc]⟩
  · intro s hs hne
    have h1 : strTruthy (some s) = true := by simp [strTruthy, hne]
    exact ⟨"Command timeout: " ++ p.command ++ " (selector: ", ")",
      by simp [timeoutMessage, hs, h1, String.append_assoc]⟩
  · intro x h1 hx hne
    have h2 : strTruthy (some x) = true := by simp [strTruthy, hne]
    exact ⟨"Command timeout: " ++ p.command ++ " (xpath: ", ")",
      by simp [timeoutMessage, h1, hx, h2, String.append_assoc]⟩

def c6Entry : PendingEntry :=
  { command := "wait_for_element", selector := some "#app", xpath := none,
    tabId := some "t1", timeoutMs := 50 }

def c6St : CorrState := { registry := [], pending := [("cmd-3", c6Entry)] }

theorem c6_timeout_rejects_with_context_witness :
    (fireTimeout c6St "cmd-3").1.pending = eraseKey c6St.pending "cmd-3"
    ∧ getKey (fireTimeout c6St "cmd-3").1.pending "cmd-3" = none
    ∧ (fireTimeout c6St "cmd-3").2
        = some (.reject (timeoutMessage "wait_for_element" (some "#app") none)) := by
  have h := c6_timeout_rejects_with_context c6St "cmd-3" c6Entry rfl
  exact ⟨h.1, h.2.1, h.2.2.1⟩

/-! ## Dispatch deadline lemmas (C4) -/

theorem adjustToolArgs_keypress (args : ExecArgs) :
    adjustToolArgs "keypress" args =
      (if numTruthy args.delay && !numTruthy args.timeout then
        { args with timeout := some (max 5000 (args.delay.getD 0 + 2000)) }
      else args) := rfl

theorem adjustToolArgs_click (args : ExecArgs) :
    adjustToolArgs "click" args =
      { args with commandTimeout := some (jsOrNum args.timeout 8000) } := rfl

theorem adjustToolArgs_wait (args : ExecArgs) :
    adjustToolArgs "wait_for_element" args =
      (if numTruthy args.timeout then
        { args with commandTimeout := some (args.timeout.getD 0 + 2000) }
      else args) := rfl

theorem adjustToolArgs_type (args : ExecArgs) :
    adjustToolArgs "type" args =
      (if strTruthy args.text then
        { args with commandTimeout := some (jsOrNum args.timeout
            (max 5000 ((args.text.getD "").length * args.delay.getD 50 + 5000))) }
      else args) := rfl

theorem getD_zero_of_not_numTruthy (o : Option Nat) (h : numTruthy o = false) :
    o.getD 0 = 0 := by
  cases o with
  | none => rfl
  | some n => simpa [numTruthy] using h

theorem getD_empty_of_not_strTruthy (o : Option String) (h : strTruthy o = false) :
    o.getD "" = "" := by
  cases o with
  | none => rfl
  | some s => simpa [strTruthy] using h

def c4TypeArgs : ExecArgs :=
  { tabId := some "t1", timeout := some 100, commandTimeout := none,
    selector := some "#in", xpath := none, text := some "aaaa", delay := some 50 }

def c4KeyArgs : ExecArgs :=
  { tabId := some "t1", timeout := some 100, commandTimeout := none,
    selector := none, xpath := none, text := none, delay := some 10000 }

/-- C4 counterexample: a caller-supplied `timeout` overrides the
duration-derived deadline.  Typing 4 characters at a 50ms delay declares
a 200ms duration, yet a caller timeout of 100 makes the correlator
deadline 100ms; a keypress with a 10000ms delay and a caller timeout of
100 likewise gets a 100ms deadline.  So the dispatch deadline is not
"at least the operation's own declared duration plus a fixed overhead,
regardless of any caller-supplied timeout value". -/
theorem c4_caller_timeout_counterexample :
    dispatchDeadline "type" c4TypeArgs = 100
    ∧ (c4TypeArgs.text.getD "").length * c4TypeArgs.delay.getD 50 = 200
    ∧ dispatchDeadline "type" c4TypeArgs
        < (c4TypeArgs.text.getD "").length * c4TypeArgs.delay.getD 50
    ∧ dispatchDeadline "keypress" c4KeyArgs = 100
    ∧ dispatchDeadline "keypress" c4KeyArgs < c4KeyArgs.delay.getD 0 := by
  refine ⟨rfl, rfl, ?_, rfl, ?_⟩ <;> decide

/-- C4 as amended: when the caller supplies no timeout (and the internal
`_commandTimeout` is unset, as it is on entry), the correlator deadline
is at least the declared duration plus fixed overhead — `wait_for_element`
even unconditionally (its `timeout` argument is itself the wait
duration); a caller-supplied timeout instead takes precedence and may
undercut the duration; `click` has no duration parameter and defaults
to 8s. -/
theorem c4_deadline_amended (args : ExecArgs) (hct : args.commandTimeout = none) :
    args.timeout.getD 0 + 2000 ≤ dispatchDeadline "wait_for_element" args
    ∧ (numTruthy args.timeout = false →
        args.delay.getD 0 + 2000 ≤ dispatchDeadline "keypress" args
        ∧ (args.text.getD "").length * args.delay.getD 50 + 5000
            ≤ dispatchDeadline "type" args
        ∧ dispatchDeadline "click" args = 8000) := by
  obtain ⟨tb, tmo, ct, sel, xp, tx, dl⟩ := args
  replace hct : ct = none := hct
  subst hct
  constructor
  · unfold dispatchDeadline
    rw [adjustToolArgs_wait]
    cases tmo with
    | none => simp [computeTimeoutMs, numTruthy, jsOrNum]
    | some n =>
      by_cases hn : n = 0
      · subst hn
        simp [computeTimeoutMs, numTruthy, jsOrNum]
      · have h2 : n + 2000 ≠ 0 := by omega
        simp [computeTimeoutMs, numTruthy, jsOrNum, hn, h2]
  · intro ht
    have hto : tmo = none ∨ tmo = some 0 := by
      cases tmo with
      | none => exact Or.inl rfl
      | some n =>
        refine Or.inr ?_
        have : n = 0 := by simpa [numTruthy] using ht
        rw [this]
    refine ⟨?_, ?_, ?_⟩
    · unfold dispatchDeadline
      rw [adjustToolArgs_keypress]
      cases dl with
      | none =>
        rcases hto with h | h <;> subst h <;>
          simp [computeTimeoutMs, numTruthy, jsOrNum]
      | some m =>
        by_cases hm : m = 0
        · subst hm
          rcases hto with h | h <;> subst h <;>
            simp [computeTimeoutMs, numTruthy, jsOrNum]
        · have hmax : max 5000 (m + 2000) ≠ 0 := by
            have := Nat.le_max_left 5000 (m + 2000)
            omega
          rcases hto with h | h <;> subst h <;>
            simp [computeTimeoutMs, numTruthy, jsOrNum, hm, hmax, le_max_right]
    · unfold dispatchDeadline
      rw [adjustToolArgs_type]
      cases tx with
      | none =>
        rcases hto with h | h <;> subst h <;>
          simp [computeTimeoutMs, numTruthy, jsOrNum, strTruthy]
      | some s =>
        by_cases hs : s = ""
        · subst hs
          rcases hto with h | h <;> subst h <;>
            simp [computeTimeoutMs, numTruthy, jsOrNum, strTruthy]
        · have hs1 : strTruthy (some s) = true := by simp [strTruthy, hs]
          have hmax : max 5000 (s.length * dl.getD 50 + 5000) ≠ 0 := by
            have := Nat.le_max_left 5000 (s.length * dl.getD 50 + 5000)
            omega
          rcases hto with h | h <;> subst h <;>
            simp [computeTimeoutMs, numTruthy, jsOrNum, hs1, hmax, le_max_right]
    · unfold dispatchDeadline
      rw [adjustToolArgs_click]
      rcases hto with h | h <;> subst h <;>
        simp [computeTimeoutMs, numTruthy, jsOrNum]

def c4WitArgs : ExecArgs :=
  { tabId := some "t1", timeout := none, commandTimeout := none,
    selector := none, xpath := none, text := some "aaaa", delay := some 50 }

theorem c4_deadline_amended_witness :
    c4WitArgs.timeout.getD 0 + 2000 ≤ dispatchDeadline "wait_for_element" c4WitArgs
    ∧ (c4WitArgs.text.getD "").length * c4WitArgs.delay.getD 50 + 5000
        ≤ dispatchDeadline "type" c4WitArgs
    ∧ dispatchDeadline "click" c4WitArgs = 8000
    ∧ c4WitArgs.delay.getD 0 + 2000 ≤ dispatchDeadline "keypress" c4WitArgs := by
  have h := c4_deadline_amended c4WitArgs rfl
  have h2 := h.2 rfl
  exact ⟨h.1, h2.2.1, h2.2.2, h2.1⟩

/-! ## Unknown-session handling (C1) -/

def c1St : ManagerState :=
  { connections := [], httpSessions := [], sseSessions := [],
    registry := [], dynamicTabResources := [] }

/-- C1 counterexample: a Streamable-HTTP follow-up whose `mcp-session-id`
matches no live session is not rejected by the session manager — the
unknown id is only logged, and the request is handed to a freshly created
connection and transport (here `http-1`), so the manager does not answer
with an explicit unknown-session error. -/
theorem c1_unknown_http_session_counterexample :
    (handleHttpRequest c1St (some "stale-session") "http-1").2
      = HttpOutcome.newConnection "http-1" true
    ∧ (handleHttpRequest c1St (some "stale-session") "http-1").1.connections
      = [{ id := "http-1", kind := .http, hasTransport := true,
           transportSessionId := none, initialized := false }] :=
  ⟨rfl, rfl⟩

/-- C1 as amended: over the event-stream transport an unknown session id
is rejected with an explicit 404 session-not-found error and no session
state changes; over the stateless-request transport the unknown id is
only logged and the request is handled by a freshly created connection
and transport — and no `httpSessions` entry is created during routing, so
no session ever reuses the stale header value. -/
theorem c1_unknown_session_amended (st : ManagerState) (sid fresh : String)
    (hsse : getKey st.sseSessions sid = none)
    (hscan : st.connections.find? (fun (c : MCPConnection) =>
        c.kind == TransportKind.sse && c.hasTransport
          && c.transportSessionId == some sid) = none)
    (hhttp : getKey st.httpSessions sid = none) :
    handleSSEMessage st (some sid) = (st, .sessionNotFound sid)
    ∧ (handleHttpRequest st (some sid) fresh).2 = .newConnection fresh true
    ∧ (handleHttpRequest st (some sid) fresh).1.httpSessions = st.httpSessions
    ∧ (handleHttpRequest st (some sid) fresh).1.sseSessions = st.sseSessions := by
  refine ⟨?_, ?_, ?_, ?_⟩
  · simp [handleSSEMessage, hsse, hscan]
  · simp [handleHttpRequest, hhttp]
  · simp [handleHttpRequest, hhttp]
  · simp [handleHttpRequest, hhttp]

theorem c1_unknown_session_amended_witness :
    handleSSEMessage c1St (some "stale-session")
      = (c1St, .sessionNotFound "stale-session")
    ∧ (handleHttpRequest c1St (some "stale-session") "http-1").2
      = .newConnection "http-1" true
    ∧ (handleHttpRequest c1St (some "stale-session") "http-1").1.httpSessions
      = c1St.httpSessions
    ∧ (handleHttpRequest c1St (some "stale-session") "http-1").1.sseSessions
      = c1St.sseSessions :=
  c1_unknown_session_amended c1St "stale-session" "http-1" rfl rfl rfl

/-! ## Session timeout heuristic (C10) -/

/-- C10: the `mcp-session-timeout` header heuristic — a finite positive
value below 1000 is treated as seconds and multiplied by 1000, a value of
at least 1000 is used directly as milliseconds, and a missing,
non-numeric or non-positive value falls back to the 30-minute default
(1800000 ms). -/
theorem c10_session_timeout_heuristic (q : ℚ) :
    (0 < q → q < 1000 → sessionTimeoutMs (.value q) = q * 1000)
    ∧ (1000 ≤ q → sessionTimeoutMs (.value q) = q)
    ∧ (q ≤ 0 → sessionTimeoutMs (.value q) = 1800000)
    ∧ sessionTimeoutMs .missing = 1800000
    ∧ sessionTimeoutMs .notNumeric = 1800000 := by
  have hdef : ((defaultHttpSessionTimeoutMs : ℚ)) = 1800000 := by
    norm_num [defaultHttpSessionTimeoutMs]
  refine ⟨?_, ?_, ?_, ?_, ?_⟩
  · intro h1 h2
    have h3 : ¬q ≤ 0 := not_le.mpr h1
    simp [sessionTimeoutMs, parseSessionTimeout, h2, h3]
  · intro h1
    have h2 : ¬q ≤ 0 := by linarith
    have h3 : ¬q < 1000 := not_lt.mpr h1
    simp [sessionTimeoutMs, parseSessionTimeout, h2, h3]
  · intro h1
    simp [sessionTimeoutMs, parseSessionTimeout, h1, hdef]
  · simp [sessionTimeoutMs, parseSessionTimeout, hdef]
  · simp [sessionTimeoutMs, parseSessionTimeout, hdef]

theorem c10_session_timeout_heuristic_witness :
    sessionTimeoutMs (.value 5) = 5000
    ∧ sessionTimeoutMs (.value 1500) = 1500
    ∧ sessionTimeoutMs (.value (-3)) = 1800000
    ∧ sessionTimeoutMs .missing = 1800000 := by
  refine ⟨?_, ?_, ?_, (c10_session_timeout_heuristic 7).2.2.2.1⟩
  · have h := (c10_session_timeout_heuristic 5).1 (by norm_num) (by norm_num)
    rw [h]; norm_num
  · exact (c10_session_timeout_heuristic 1500).2.1 (by norm_num)
  · exact (c10_session_timeout_heuristic (-3)).2.2.1 (by norm_num)

/-! ## Notification fan-out lemmas (C7, C8) -/

theorem processEvent_notifs_initialized (st : ManagerState) (e : ManagerEvent) :
    ∀ p ∈ (processEvent st e).2,
      ∃ c ∈ (processEvent st e).1.connections, c.id = p.1 ∧ c.initialized = true := by
  intro p hp
  cases e with
  | tabConnect tab =>
    simp only [processEvent, notifyAllConnections] at hp ⊢
    rcases List.mem_append.mp hp with h | h <;>
    · rcases List.mem_map.mp h with ⟨c, hc, rfl⟩
      rcases List.mem_filter.mp hc with ⟨hcmem, hcinit⟩
      exact ⟨c, hcmem, rfl, by simpa using hcinit⟩
  | tabUpdate tabId url title =>
    simp only [processEvent, notifyAllConnections] at hp ⊢
    rcases List.mem_append.mp hp with h | h
    · by_cases hdyn : st.dynamicTabResources.contains tabId
      · simp only [hdyn, if_true] at h
        rcases List.mem_map.mp h with ⟨c, hc, rfl⟩
        rcases List.mem_filter.mp hc with ⟨hcmem, hcinit⟩
        exact ⟨c, hcmem, rfl, by simpa using hcinit⟩
      · simp only [hdyn, if_false] at h
        exact absurd h (List.not_mem_nil p)
    · rcases List.mem_map.mp h with ⟨c, hc, rfl⟩
      rcases List.mem_filter.mp hc with ⟨hcmem, hcinit⟩
      exact ⟨c, hcmem, rfl, by simpa using hcinit⟩
  | tabDisconnect tabId =>
    simp only [processEvent, notifyAllConnections] at hp ⊢
    rcases List.mem_append.mp hp with h | h
    · rcases List.mem_flatMap.mp h with ⟨c, hc, hpc⟩
      rcases List.mem_filter.mp hc with ⟨hcmem, hcinit⟩
      have hid : p.1 = c.id := by
        simp only [List.mem_cons, List.not_mem_nil, or_false] at hpc
        rcases hpc with h1 | h1 <;> rw [h1]
      exact ⟨c, hcmem, hid.symm, by simpa using hcinit⟩
    · rcases List.mem_map.mp h with ⟨c, hc, rfl⟩
      rcases List.mem_filter.mp hc with ⟨hcmem, hcinit⟩
      exact ⟨c, hcmem, rfl, by simpa using hcinit⟩
  | consoleLog tabId =>
    simp only [processEvent, notifyAllConnections] at hp ⊢
    rcases List.mem_map.mp hp with ⟨c, hc, rfl⟩
    rcases List.mem_filter.mp hc with ⟨hcmem, hcinit⟩
    exact ⟨c, hcmem, rfl, by simpa using hcinit⟩
  | clientInitialized connId =>
    simp only [processEvent, notifyAllConnections] at hp ⊢
    by_cases hr : st.registry.isEmpty
    · simp only [hr, if_true] at hp
      exact absurd hp (List.not_mem_nil p)
    · simp only [hr, if_false] at hp
      rcases List.mem_map.mp hp with ⟨c, hc, rfl⟩
      rcases List.mem_filter.mp hc with ⟨hcmem, hcinit⟩
      exact ⟨c, hcmem, rfl, by simpa using hcinit⟩

theorem processEvent_uninit_preserved (st : ManagerState) (e : ManagerEvent) (cid : String)
    (h : ∀ c ∈ st.connections, c.id = cid → c.initialized = false)
    (hne : e ≠ .clientInitialized cid) :
    ∀ c ∈ (processEvent st e).1.connections, c.id = cid → c.initialized = false := by
  cases e with
  | tabConnect tab => exact h
  | tabUpdate tabId url title => exact h
  | tabDisconnect tabId => exact h
  | consoleLog tabId => exact h
  | clientInitialized connId =>
    intro c hc hcid
    simp only [processEvent] at hc
    rcases List.mem_map.mp hc with ⟨c0, hc0, rfl⟩
    by_cases hid : c0.id == connId
    · exfalso
      have h1 : c0.id = connId := by simpa using hid
      have h2 : ({ c0 with initialized := true } : MCPConnection).id = c0.id := rfl
      simp only [hid, if_true] at hcid
      have : connId = cid := by
        rw [← h1]
        exact hcid
      exact hne (by rw [this])
    · simp only [hid, Bool.false_eq_true, if_false] at hcid ⊢
      exact h c0 hc0 hcid

theorem c7_aux (cid : String) (events : List ManagerEvent) :
    ∀ st : ManagerState,
      (∀ c ∈ st.connections, c.id = cid → c.initialized = false) →
      ManagerEvent.clientInitialized cid ∉ events →
      deliveredTo (processEvents st events).2 cid = 0 := by
  induction events with
  | nil => intro st _ _; rfl
  | cons e es ih =>
    intro st hinit hnever
    have hne : e ≠ .clientInitialized cid := by
      intro hcontra
      exact hnever (hcontra ▸ List.mem_cons_self e es)
    have hnever2 : ManagerEvent.clientInitialized cid ∉ es :=
      fun hmem => hnever (List.mem_cons_of_mem e hmem)
    have hpres := processEvent_uninit_preserved st e cid hinit hne
    have ha : deliveredTo (processEvent st e).2 cid = 0 := by
      unfold deliveredTo
      rw [List.length_eq_zero, List.filter_eq_nil_iff]
      intro p hp hpcid
      rcases processEvent_notifs_initialized st e p hp with ⟨c, hc, hcid, hcinit⟩
      have hc2 : c.id = cid := by
        rw [hcid]
        simpa using hpcid
      rw [hpres c hc hc2] at hcinit
      exact Bool.false_ne_true hcinit
    have hb := ih (processEvent st e).1 hpres hnever2
    show deliveredTo ((processEvent st e).2 ++ (processEvents (processEvent st e).1 es).2) cid = 0
    unfold deliveredTo at ha hb ⊢
    rw [List.filter_append, List.length_append]
    omega

/-- C7: a client session whose initialization flag never becomes true —
no `clientInitialized` event for it ever occurs — receives zero
asynchronous notifications across any sequence of tab connect, update,
disconnect, console-log and foreign-initialization events: every fan-out
filters on the `initialized` flag. -/
theorem c7_uninitialized_gets_no_notifications (st : ManagerState)
    (events : List ManagerEvent) (cid : String)
    (hinit : ∀ c ∈ st.connections, c.id = cid → c.initialized = false)
    (hnever : ManagerEvent.clientInitialized cid ∉ events) :
    deliveredTo (processEvents st events).2 cid = 0 :=
  c7_aux cid events st hinit hnever

def c7Tab : Tab :=
  { tabId := "t1", url := "https://a.test", title := "A", browserInstanceId := none,
    active := false, connectedAt := 0, lastPing := 0, domSize := 0,
    fullPageDimensions := (0, 0), viewportDimensions := (0, 0),
    scrollPosition := (0, 0), pageVisibility := true }

def c7St : ManagerState :=
  { connections :=
      [{ id := "c1", kind := .websocket, hasTransport := true,
         transportSessionId := none, initialized := false },
       { id := "c2", kind := .sse, hasTransport := true,
         transportSessionId := some "s2", initialized := true }],
    httpSessions := [], sseSessions := [], registry := [], dynamicTabResources := [] }

def c7Events : List ManagerEvent :=
  [.tabConnect c7Tab, .clientInitialized "c2", .tabUpdate "t1" "https://b.test" "B",
   .consoleLog "t1", .tabDisconnect "t1"]

theorem c7_uninitialized_gets_no_notifications_witness :
    deliveredTo (processEvents c7St c7Events).2 "c1" = 0 :=
  c7_uninitialized_gets_no_notifications c7St c7Events "c1" (by decide) (by decide)

/-- Discriminates the three Tab Registry callbacks. -/
def isRegistryEvent : ManagerEvent → Bool
  | .tabConnect _ => true
  | .tabUpdate _ _ _ => true
  | .tabDisconnect _ => true
  | _ => false

/-- C8: every Tab Registry callback (connect, update, disconnect) makes
every initialized client session — whatever its transport — receive a
`tabs_changed` notification whose payload is the full current tab-list
snapshot, one summary per registered tab; and only initialized sessions
receive anything. -/
theorem c8_full_snapshot_fanout (st : ManagerState) (e : ManagerEvent)
    (h : isRegistryEvent e = true) :
    (∀ c ∈ st.connections, c.initialized = true →
        (c.id, Notification.tabsChanged (tabsSnapshot (processEvent st e).1.registry))
          ∈ (processEvent st e).2)
    ∧ (∀ p ∈ (processEvent st e).2,
        ∃ c ∈ st.connections, c.id = p.1 ∧ c.initialized = true)
    ∧ (tabsSnapshot (processEvent st e).1.registry).length
        = (processEvent st e).1.registry.length := by
  refine ⟨?_, ?_, List.length_map _ _⟩
  · intro c hc hcinit
    cases e with
    | tabConnect tab =>
      simp only [processEvent, notifyAllConnections]
      exact List.mem_append_right _
        (List.mem_map.mpr ⟨c, List.mem_filter.mpr ⟨hc, by simpa using hcinit⟩, rfl⟩)
    | tabUpdate tabId url title =>
      simp only [processEvent, notifyAllConnections]
      exact List.mem_append_right _
        (List.mem_map.mpr ⟨c, List.mem_filter.mpr ⟨hc, by simpa using hcinit⟩, rfl⟩)
    | tabDisconnect tabId =>
      simp only [processEvent, notifyAllConnections]
      exact List.mem_append_right _
        (List.mem_map.mpr ⟨c, List.mem_filter.mpr ⟨hc, by simpa using hcinit⟩, rfl⟩)
    | consoleLog tabId => simp [isRegistryEvent] at h
    | clientInitialized connId => simp [isRegistryEvent] at h
  · intro p hp
    rcases processEvent_notifs_initialized st e p hp with ⟨c, hc, hcid, hcinit⟩
    cases e with
    | tabConnect tab => exact ⟨c, hc, hcid, hcinit⟩
    | tabUpdate tabId url title => exact ⟨c, hc, hcid, hcinit⟩
    | tabDisconnect tabId => exact ⟨c, hc, hcid, hcinit⟩
    | consoleLog tabId => exact ⟨c, hc, hcid, hcinit⟩
    | clientInitialized connId => simp [isRegistryEvent] at h

def c8St : ManagerState :=
  { connections :=
      [{ id := "c1", kind := .websocket, hasTransport := true,
         transportSessionId := none, initialized := true },
       { id := "c2", kind := .http, hasTransport := true,
         transportSessionId := none, initialized := false },
       { id := "c3", kind := .sse, hasTransport := true,
         transportSessionId := some "s3", initialized := true }],
    httpSessions := [], sseSessions := [],
    registry := [{ tabId := "t0", url := "https://x.test", title := "X",
                   browserInstanceId := none, active := true, connectedAt := 0,
                   lastPing := 0, domSize := 0, fullPageDimensions := (0, 0),
                   viewportDimensions := (0, 0), scrollPosition := (0, 0),
                   pageVisibility := true }],
    dynamicTabResources := ["t0"] }

def c8Conn : MCPConnection :=
  { id := "c1", kind := .websocket, hasTransport := true,
    transportSessionId := none, initialized := true }

theorem c8_full_snapshot_fanout_witness :
    ("c1", Notification.tabsChanged
        (tabsSnapshot (processEvent c8St (.tabConnect c7Tab)).1.registry))
      ∈ (processEvent c8St (.tabConnect c7Tab)).2
    ∧ (tabsSnapshot (processEvent c8St (.tabConnect c7Tab)).1.registry).length
        = (processEvent c8St (.tabConnect c7Tab)).1.registry.length := by
  have h := c8_full_snapshot_fanout c8St (.tabConnect c7Tab) rfl
  exact ⟨h.1 c8Conn (by decide) rfl, h.2.2⟩

/-! ## `list_tabs` annotation lemmas (C9) -/

theorem listTabsSuccess_tabs (browserTabs : List BrowserTab) (connectedIds : List String) :
    (listTabsSuccess browserTabs connectedIds).tabs
      = browserTabs.map (mkTabListEntry connectedIds) := by
  unfold listTabsSuccess
  dsimp only
  repeat' split
  all_goals rfl

theorem listTabsFallback_tabs (registry : TabRegistryState) :
    (listTabsFallback registry).tabs
      = registry.map (fun tab =>
          { tabId := tab.tabId, title := tab.title, url := tab.url, active := tab.active,
            connected := true,
            automationSafe := !isProtectedChatTab (some tab.url) : TabListEntry }) := by
  unfold listTabsFallback
  dsimp only
  split <;> rfl

def c9CexTabs : List BrowserTab :=
  [{ id := "7", title := "Example", url := "https://example.com", active := false }]

/-- C9 counterexample: the `automationSafe` flag is not determined by the
hostname-vs-denylist test alone.  With the registry holding only tab
`"1"`, the browser-reported tab `"7"` at `https://example.com` — whose
hostname is not on the denylist — is annotated `automationSafe = false`
because it is not connected. -/
theorem c9_hostname_only_counterexample :
    ((listTabsSuccess c9CexTabs ["1"]).tabs.all
        (fun t => t.automationSafe == !isProtectedChatTab (some t.url))) = false
    ∧ (listTabsSuccess c9CexTabs ["1"]).tabs.map (fun t => t.automationSafe) = [false]
    ∧ isProtectedChatTab (some "https://example.com") = false := by
  refine ⟨?_, ?_, ?_⟩ <;> decide

/-- C9 as amended: every tab listed by `list_tabs` carries a computed
`automationSafe` flag equal to (hostname not on the denylist) AND (tab
connected to the server); on the registry fallback path every listed tab
is connected, so the flag reduces to the denylist test.  When the
registry is nonempty, the listed active tab is a protected chat tab and a
safe tab exists, the result recommends the first safe tab. -/
theorem c9_automation_safety_amended (browserTabs : List BrowserTab)
    (connectedIds : List String) (registry : TabRegistryState) :
    (∀ t ∈ (listTabsSuccess browserTabs connectedIds).tabs,
        t.automationSafe = (!isProtectedChatTab (some t.url) && t.connected))
    ∧ (∀ t ∈ (listTabsFallback registry).tabs,
        t.automationSafe = !isProtectedChatTab (some t.url) ∧ t.connected = true)
    ∧ (∀ recTab rest, connectedIds.isEmpty = false →
        (browserTabs.map (mkTabListEntry connectedIds)).filter
            (fun t => t.automationSafe) = recTab :: rest →
        isProtectedChatTab (((browserTabs.map (mkTabListEntry connectedIds)).find?
            (fun t => t.active)).map (fun t => t.url)) = true →
        (listTabsSuccess browserTabs connectedIds).recommendedTabId = some recTab.tabId) := by
  refine ⟨?_, ?_, ?_⟩
  · rw [listTabsSuccess_tabs]
    intro t ht
    rcases List.mem_map.mp ht with ⟨bt, _, rfl⟩
    rfl
  · rw [listTabsFallback_tabs]
    intro t ht
    rcases List.mem_map.mp ht with ⟨tab, _, rfl⟩
    exact ⟨rfl, rfl⟩
  · intro recTab rest hconn hsafe hactive
    have hne : (browserTabs.map (mkTabListEntry connectedIds)).isEmpty = false := by
      cases hbt : browserTabs.map (mkTabListEntry connectedIds) with
      | nil => rw [hbt] at hsafe; simp at hsafe
      | cons a l => rfl
    unfold listTabsSuccess
    dsimp only
    rw [hsafe, hconn, hactive]
    simp [hne]

def c9Bts : List BrowserTab :=
  [{ id := "9", title := "Chat", url := "https://chatgpt.com/c/1", active := true },
   { id := "2", title := "Docs", url := "https://docs.test/", active := false }]

def c9Ids : List String := ["2", "9"]

def c9SafeBt : BrowserTab :=
  { id := "2", title := "Docs", url := "https://docs.test/", active := false }

theorem c9_automation_safety_amended_witness :
    (listTabsSuccess c9Bts c9Ids).recommendedTabId = some "2"
    ∧ (mkTabListEntry c9Ids c9SafeBt).automationSafe
        = (!isProtectedChatTab (some (mkTabListEntry c9Ids c9SafeBt).url)
            && (mkTabListEntry c9Ids c9SafeBt).connected) := by
  have h := c9_automation_safety_amended c9Bts c9Ids []
  refine ⟨?_, ?_⟩
  · exact h.2.2 (mkTabListEntry c9Ids c9SafeBt) [] (by decide) (by decide) (by decide)
  · exact h.1 (mkTabListEntry c9Ids c9SafeBt) (by decide)

end LlmBrowserBot
